import Mathlib

/-!
Verification development for the voice-call MCP server's call-session core.

The embedding covers:
* `OpenAIEventService` (processMessage / processEvent / handleTranscriptionCompleted /
  handleAudioTranscriptDone / handleAudioDelta),
* `TranscriptStoreService` (the in-memory transcript map),
* `CallPersistenceService.getTranscript` (the ownership-checked database lookup),
together with two operations of the owning call-session handler that are described
by the design document but whose implementation file is not among the provided
sources (`truncateActiveResponse`, the media-frame timestamp update); those are
modelled from the design document and marked as such in their doc comments.

JavaScript-specific behaviour is embedded explicitly: optional numeric fields are
`Option Nat`, and the source's truthiness tests (`!x`, which holds for both
`undefined` and `0`, and non-empty-string tests) are embedded as the decidable
predicates `numFalsy` and `strTruthy`.
-/

namespace VoiceCall

/-- One entry of `conversationHistory` (`ConversationMessage` in types.ts):
a role (`"user"` or `"assistant"`) and the text content. -/
structure ConversationMessage where
  role : String
  content : String
deriving DecidableEq, Repr

/-- The per-call mutable state (`CallState`), restricted to the fields read or
written by `OpenAIEventService` and the session handler operations modelled here.
Timestamps are in milliseconds. `callSid` is the carrier call identifier, empty
string standing for the JavaScript empty/unset value. -/
structure CallState where
  callSid : String
  conversationHistory : List ConversationMessage
  latestMediaTimestamp : Nat
  responseStartTimestampTwilio : Option Nat
  lastAssistantItemId : Option String
  pendingPlaybackMarks : List String
deriving DecidableEq, Repr

/-- The observable instructions (side effects) the event service and the
session handler emit while processing one inbound model message: audio relayed
to the carrier, a truncate request to the model, a clear request to the
carrier, a dispatched transcript-persistence write, the logged failure of such
a write, the end-call trigger, and an error log line. -/
inductive Instr where
  | sendAudioToTwilio (payload : String)
  | truncate (itemId : String) (elapsedMs : Nat)
  | clearTwilio
  | persistMessage (callSid : String) (role : String) (content : String)
  | logPersistFailure (callSid : String)
  | endCall
  | logError (msg : String)
deriving DecidableEq, Repr

/-- The decoded inbound model events dispatched by `processEvent`.
`other` stands for any well-formed event whose `type` is none of the four
handled kinds. Missing string fields are embedded as `""` (transcripts) or
`none` (item identifiers), matching the JavaScript falsy checks in the source. -/
inductive OpenAIEvent where
  | transcriptionCompleted (transcript : String)
  | audioTranscriptDone (transcript : String)
  | audioDelta (delta : String) (itemId : Option String)
  | speechStarted
  | other (ty : String)
deriving DecidableEq, Repr

/-- An inbound model socket message as seen by `processMessage`: either its
envelope fails to decode (JSON.parse throws) or it decodes to an event. -/
inductive ModelMessage where
  | malformed (raw : String)
  | wellFormed (e : OpenAIEvent)
deriving DecidableEq, Repr

/-- JavaScript falsiness of an optional number: `undefined`/`null` and `0` are
falsy. Embeds the source's `!this.callState.responseStartTimestampTwilio`. -/
def numFalsy : Option Nat → Bool
  | none => true
  | some n => n == 0

/-- JavaScript truthiness of an optional string: present and non-empty.
Embeds the source's `if (response.item_id)`. -/
def strTruthy : Option String → Bool
  | none => false
  | some s => s != ""

/-- `OpenAIEventService.handleTranscriptionCompleted`: ignore an empty
transcription; otherwise append a user entry to `conversationHistory`,
dispatch a persistence write when `callSid` is non-empty (the write is not
awaited; its rejection is only logged, embedded here via the `persistOk`
outcome flag), and trigger `onEndCall` when the goodbye policy matches.
The goodbye policy (`checkForGoodbye` of call-utils.ts, not among the provided
sources; the design document leaves its matching rule unspecified) is taken as
the parameter `goodbye`. -/
def handleTranscriptionCompleted (goodbye : String → Bool) (persistOk : Bool)
    (st : CallState) (transcription : String) : CallState × List Instr :=
  if transcription = "" then (st, [])
  else
    ({ st with conversationHistory :=
        st.conversationHistory ++ [⟨"user", transcription⟩] },
      (if st.callSid ≠ "" then
        Instr.persistMessage st.callSid "user" transcription ::
          (if persistOk then [] else [Instr.logPersistFailure st.callSid])
      else []) ++
      (if goodbye transcription then [Instr.endCall] else []))

/-- `OpenAIEventService.handleAudioTranscriptDone`: the assistant-side twin of
`handleTranscriptionCompleted`, appending an assistant entry. -/
def handleAudioTranscriptDone (goodbye : String → Bool) (persistOk : Bool)
    (st : CallState) (transcript : String) : CallState × List Instr :=
  if transcript = "" then (st, [])
  else
    ({ st with conversationHistory :=
        st.conversationHistory ++ [⟨"assistant", transcript⟩] },
      (if st.callSid ≠ "" then
        Instr.persistMessage st.callSid "assistant" transcript ::
          (if persistOk then [] else [Instr.logPersistFailure st.callSid])
      else []) ++
      (if goodbye transcript then [Instr.endCall] else []))

/-- `OpenAIEventService.handleAudioDelta`: relay the payload to the carrier;
if `responseStartTimestampTwilio` is JavaScript-falsy (unset or `0`) set it to
`latestMediaTimestamp`; if the event carries a truthy `item_id` record it as
`lastAssistantItemId`. -/
def handleAudioDelta (st : CallState) (delta : String) (itemId : Option String) :
    CallState × List Instr :=
  let st1 := if numFalsy st.responseStartTimestampTwilio then
      { st with responseStartTimestampTwilio := some st.latestMediaTimestamp }
    else st
  let st2 := if strTruthy itemId then { st1 with lastAssistantItemId := itemId }
    else st1
  (st2, [Instr.sendAudioToTwilio delta])

/-- Modelled from the spec: `truncateActiveResponse()` of the owning call
session (section 4.1 of the design document; its implementation file,
openai.handler.ts, is not among the provided sources). If the active response
item id is set, compute `elapsed = latestMediaTimestamp - responseStartTimestamp`
floored at zero (`Nat` subtraction truncates at zero), emit one truncate
instruction for that item and one clear instruction to the carrier, and clear
the response-start timestamp, the active item id and the pending playback
marks; otherwise do nothing. -/
def truncateActiveResponse (st : CallState) : CallState × List Instr :=
  match st.lastAssistantItemId with
  | none => (st, [])
  | some i =>
      ({ st with
          responseStartTimestampTwilio := none
          lastAssistantItemId := none
          pendingPlaybackMarks := [] },
        [Instr.truncate i
            (st.latestMediaTimestamp - (st.responseStartTimestampTwilio.getD 0)),
          Instr.clearTwilio])

/-- Modelled from the spec: the `media` arm of `onCarrierFrame` (section 4.1 of
the design document; the carrier-side handler is not among the provided
sources) updates `latestMediaTimestamp` from the inbound frame's timestamp. -/
def onCarrierMediaFrame (st : CallState) (timestamp : Nat) : CallState :=
  { st with latestMediaTimestamp := timestamp }

/-- `OpenAIEventService.processEvent`: dispatch one decoded event. An audio
delta is handled only when its payload is truthy (non-empty); the
`input_audio_buffer.speech_started` arm invokes the session's truncate
operation; every other event kind has no effect. -/
def processEvent (goodbye : String → Bool) (persistOk : Bool)
    (st : CallState) (e : OpenAIEvent) : CallState × List Instr :=
  match e with
  | .transcriptionCompleted t => handleTranscriptionCompleted goodbye persistOk st t
  | .audioTranscriptDone t => handleAudioTranscriptDone goodbye persistOk st t
  | .audioDelta d i => if d ≠ "" then handleAudioDelta st d i else (st, [])
  | .speechStarted => truncateActiveResponse st
  | .other _ => (st, [])

/-- `OpenAIEventService.processMessage`: decode the envelope inside a
try/catch; a decode failure is logged and the message discarded, a decoded
event is dispatched to `processEvent`. Total by construction, so no exception
ever reaches the caller. -/
def processMessage (goodbye : String → Bool) (persistOk : Bool)
    (st : CallState) (m : ModelMessage) : CallState × List Instr :=
  match m with
  | .malformed raw => (st, [Instr.logError raw])
  | .wellFormed e => processEvent goodbye persistOk st e

/-- Fold `processEvent` over a sequence of decoded events, keeping the state. -/
def processEvents (goodbye : String → Bool) (persistOk : Bool)
    (st : CallState) (es : List OpenAIEvent) : CallState :=
  es.foldl (fun s e => (processEvent goodbye persistOk s e).1) st

/-- A key-indexed lookup over an association list, embedding
JavaScript `Map.prototype.get`. -/
def mapGet {α : Type} (m : List (String × α)) (k : String) : Option α :=
  match m with
  | [] => none
  | (k', v') :: rest => if k' = k then some v' else mapGet rest k

/-- A key-indexed update-or-insert over an association list, embedding
JavaScript `Map.prototype.set` (replace in place when the key is present,
append otherwise). -/
def mapSet {α : Type} (m : List (String × α)) (k : String) (v : α) :
    List (String × α) :=
  match m with
  | [] => [(k, v)]
  | (k', v') :: rest => if k' = k then (k, v) :: rest else (k', v') :: mapSet rest k v

/-- The `CallTranscript` record of the in-memory `TranscriptStoreService`
(transcript.service.ts). Dates are milliseconds-since-epoch naturals. -/
structure CallTranscript where
  callSid : String
  fromNumber : String
  toNumber : String
  callContext : String
  startTime : Nat
  endTime : Option Nat
  messages : List ConversationMessage
  status : String
deriving DecidableEq, Repr

/-- The state of `TranscriptStoreService`: the transcript map and the most
recently started call sid. -/
structure TranscriptStore where
  transcripts : List (String × CallTranscript)
  latestCallSid : Option String
deriving DecidableEq, Repr

/-- `TranscriptStoreService.startCall`: insert a fresh in-progress transcript
for the sid and mark it latest. `now` stands for `new Date()`. -/
def TranscriptStore.startCall (s : TranscriptStore)
    (callSid fromNumber toNumber callContext : String) (now : Nat) :
    TranscriptStore :=
  { transcripts := mapSet s.transcripts callSid
      { callSid := callSid
        fromNumber := fromNumber
        toNumber := toNumber
        callContext := callContext
        startTime := now
        endTime := none
        messages := []
        status := "in_progress" }
    latestCallSid := some callSid }

/-- `TranscriptStoreService.addMessage`: append an entry to the transcript's
message list when the sid is present; otherwise do nothing. -/
def TranscriptStore.addMessage (s : TranscriptStore)
    (callSid role content : String) : TranscriptStore :=
  match mapGet s.transcripts callSid with
  | none => s
  | some tr =>
      let tr' := { tr with messages := tr.messages ++ [⟨role, content⟩] }
      { s with transcripts := mapSet s.transcripts callSid tr' }

/-- `TranscriptStoreService.endCall`: when the sid is present, set the end
time and mark the transcript completed. `now` stands for `new Date()`. -/
def TranscriptStore.endCall (s : TranscriptStore) (callSid : String)
    (now : Nat) : TranscriptStore :=
  match mapGet s.transcripts callSid with
  | none => s
  | some tr =>
      let tr' := { tr with endTime := some now, status := "completed" }
      { s with transcripts := mapSet s.transcripts callSid tr' }

/-- `TranscriptStoreService.getTranscript`: plain map lookup. -/
def TranscriptStore.getTranscript (s : TranscriptStore) (callSid : String) :
    Option CallTranscript :=
  mapGet s.transcripts callSid

/-- Fold `TranscriptStore.addMessage` over a list of messages for one sid,
standing for N successive `addMessage` calls in call order. -/
def TranscriptStore.addMessages (s : TranscriptStore) (callSid : String)
    (msgs : List ConversationMessage) : TranscriptStore :=
  msgs.foldl (fun st m => st.addMessage callSid m.role m.content) s

/-- One row of the `Call` table joined with its `CallMessage` rows in
ascending-timestamp order, as returned by the persistence layer's
`findUnique` with the `messages` include (call-persistence.service.ts). -/
structure DbCall where
  callSid : String
  userId : String
  fromNumber : String
  toNumber : String
  callContext : Option String
  startedAt : Nat
  endedAt : Option Nat
  status : String
  messages : List (ConversationMessage × Nat)
deriving DecidableEq, Repr

/-- The persistence layer's transcript view (`CallTranscript` of
call-persistence.service.ts). -/
structure DbTranscript where
  callSid : String
  fromNumber : String
  toNumber : String
  callContext : Option String
  startTime : Nat
  endTime : Option Nat
  status : String
  messages : List (ConversationMessage × Nat)
deriving DecidableEq, Repr

/-- `prisma.call.findUnique` on the unique `callSid` column: first (and by
uniqueness only) row with that sid. -/
def findUniqueBySid (db : List DbCall) (callSid : String) : Option DbCall :=
  db.find? (fun c => c.callSid == callSid)

/-- `CallPersistenceService.callToTranscript`: project a joined row to the
transcript view. -/
def callToTranscript (call : DbCall) : DbTranscript :=
  { callSid := call.callSid
    fromNumber := call.fromNumber
    toNumber := call.toNumber
    callContext := call.callContext
    startTime := call.startedAt
    endTime := call.endedAt
    status := call.status
    messages := call.messages }

/-- `CallPersistenceService.getTranscript`: look the call up by sid; return
null when absent; return null as well when the stored row's owner differs
from the requesting user; otherwise return the transcript view. -/
def getTranscriptOwned (db : List DbCall) (callSid userId : String) :
    Option DbTranscript :=
  match findUniqueBySid db callSid with
  | none => none
  | some call => if call.userId ≠ userId then none else some (callToTranscript call)

/-- Whether the stored call for `callSid` exists and is owned by `userId`. -/
def ownerMatches (db : List DbCall) (callSid userId : String) : Bool :=
  match findUniqueBySid db callSid with
  | none => false
  | some call => call.userId == userId

/-- A concrete goodbye policy that never matches; used to instantiate the
policy parameter in concrete evaluations. -/
def neverGoodbye : String → Bool := fun _ => false

/-- A concrete goodbye policy matching the exact word "goodbye"; used to
instantiate the policy parameter in concrete evaluations. -/
def saysGoodbye : String → Bool := fun s => s == "goodbye"

/-- A concrete call state with an in-flight model response: response started
at media timestamp 100, current media timestamp 320, active item "item-1". -/
def stActive : CallState :=
  { callSid := "CA1"
    conversationHistory := []
    latestMediaTimestamp := 320
    responseStartTimestampTwilio := some 100
    lastAssistantItemId := some "item-1"
    pendingPlaybackMarks := ["m1"] }

/-- A concrete freshly-created call state: no response in flight, media clock
at 0 (its initial value), callSid assigned. -/
def stFresh : CallState :=
  { callSid := "CA1"
    conversationHistory := []
    latestMediaTimestamp := 0
    responseStartTimestampTwilio := none
    lastAssistantItemId := none
    pendingPlaybackMarks := [] }

/-- A concrete call state whose `callSid` is still the empty string (the
session has not yet learned its carrier call identifier). -/
def stNoSid : CallState :=
  { callSid := ""
    conversationHistory := []
    latestMediaTimestamp := 0
    responseStartTimestampTwilio := none
    lastAssistantItemId := none
    pendingPlaybackMarks := [] }

/-- A one-row database: call "CA1" owned by user "u1". -/
def dbOne : List DbCall :=
  [{ callSid := "CA1"
     userId := "u1"
     fromNumber := "+15550001111"
     toNumber := "+15552223333"
     callContext := none
     startedAt := 0
     endedAt := none
     status := "in_progress"
     messages := [] }]

/-! ## Supporting lemmas -/

/-- Field-by-field characterisation of `handleAudioDelta`: the payload is the
only emitted instruction; every state field other than the response-start
timestamp and the assistant item id is untouched; the timestamp is overwritten
exactly when it is JavaScript-falsy, the item id exactly when the event's
`item_id` is truthy. -/
theorem handleAudioDelta_spec (st : CallState) (d : String) (i : Option String) :
    (handleAudioDelta st d i).2 = [Instr.sendAudioToTwilio d] ∧
    (handleAudioDelta st d i).1.callSid = st.callSid ∧
    (handleAudioDelta st d i).1.conversationHistory = st.conversationHistory ∧
    (handleAudioDelta st d i).1.latestMediaTimestamp = st.latestMediaTimestamp ∧
    (handleAudioDelta st d i).1.pendingPlaybackMarks = st.pendingPlaybackMarks ∧
    (handleAudioDelta st d i).1.responseStartTimestampTwilio =
      (if numFalsy st.responseStartTimestampTwilio then some st.latestMediaTimestamp
        else st.responseStartTimestampTwilio) ∧
    (handleAudioDelta st d i).1.lastAssistantItemId =
      (if strTruthy i then i else st.lastAssistantItemId) := by
  by_cases h1 : numFalsy st.responseStartTimestampTwilio = true <;>
    by_cases h2 : strTruthy i = true <;>
      simp [handleAudioDelta, h1, h2]

/-- The end-call instruction appears among the effects of a non-empty caller
transcription exactly when the goodbye policy matches the text. -/
theorem mem_endCall_handleTranscription (g : String → Bool) (p : Bool) (st : CallState)
    (t : String) (ht : ¬ t = "") :
    (Instr.endCall ∈ (handleTranscriptionCompleted g p st t).2) ↔ g t = true := by
  cases p <;> by_cases hg : g t = true <;> by_cases hs : st.callSid = "" <;>
    simp [handleTranscriptionCompleted, ht, hg, hs]

/-- The end-call instruction appears among the effects of a non-empty
assistant transcript exactly when the goodbye policy matches the text. -/
theorem mem_endCall_handleAudioTranscriptDone (g : String → Bool) (p : Bool) (st : CallState)
    (t : String) (ht : ¬ t = "") :
    (Instr.endCall ∈ (handleAudioTranscriptDone g p st t).2) ↔ g t = true := by
  cases p <;> by_cases hg : g t = true <;> by_cases hs : st.callSid = "" <;>
    simp [handleAudioTranscriptDone, ht, hg, hs]

/-- One processed event leaves the conversation history unchanged or appends
exactly one entry at the end. -/
theorem history_extends (g : String → Bool) (p : Bool) (st : CallState) (e : OpenAIEvent) :
    (processEvent g p st e).1.conversationHistory = st.conversationHistory ∨
      ∃ m, (processEvent g p st e).1.conversationHistory = st.conversationHistory ++ [m] := by
  cases e with
  | transcriptionCompleted t =>
      by_cases h : t = ""
      · exact Or.inl (by simp [processEvent, handleTranscriptionCompleted, h])
      · exact Or.inr ⟨⟨"user", t⟩, by simp [processEvent, handleTranscriptionCompleted, h]⟩
  | audioTranscriptDone t =>
      by_cases h : t = ""
      · exact Or.inl (by simp [processEvent, handleAudioTranscriptDone, h])
      · exact Or.inr ⟨⟨"assistant", t⟩, by simp [processEvent, handleAudioTranscriptDone, h]⟩
  | audioDelta d i =>
      refine Or.inl ?_
      by_cases hd : d = ""
      · simp [processEvent, hd]
      · have := (handleAudioDelta_spec st d i).2.2.1
        simpa [processEvent, hd] using this
  | speechStarted =>
      refine Or.inl ?_
      cases h : st.lastAssistantItemId <;>
        simp [processEvent, truncateActiveResponse, h]
  | other ty => exact Or.inl rfl

/-- Over any event sequence the starting history stays an initial segment:
the final history is the starting history followed by some tail. -/
theorem history_extends_fold (g : String → Bool) (p : Bool) (es : List OpenAIEvent) :
    ∀ st : CallState, ∃ tail,
      (processEvents g p st es).conversationHistory = st.conversationHistory ++ tail := by
  induction es with
  | nil => exact fun st => ⟨[], by simp [processEvents]⟩
  | cons e es ih =>
      intro st
      obtain ⟨t1, h1⟩ := ih ((processEvent g p st e).1)
      have hstep : processEvents g p st (e :: es) =
          processEvents g p ((processEvent g p st e).1) es := rfl
      rcases history_extends g p st e with h0 | ⟨m, h0⟩
      · exact ⟨t1, by rw [hstep, h1, h0]⟩
      · exact ⟨m :: t1, by rw [hstep, h1, h0]; simp⟩

/-- Looking up a key right after setting it returns the value just set. -/
theorem mapGet_mapSet_self {α : Type} (m : List (String × α)) (k : String) (v : α) :
    mapGet (mapSet m k v) k = some v := by
  induction m with
  | nil => simp [mapSet, mapGet]
  | cons kv rest ih =>
      obtain ⟨k', v'⟩ := kv
      by_cases h : k' = k <;> simp [mapSet, mapGet, h, ih]

/-- Folding `addMessage` over a message list appends exactly that list, in
order, to the stored transcript's messages. -/
theorem addMessages_get (callSid : String) (msgs : List ConversationMessage) :
    ∀ (s : TranscriptStore) (tr : CallTranscript),
      mapGet s.transcripts callSid = some tr →
      mapGet (TranscriptStore.addMessages s callSid msgs).transcripts callSid =
        some { tr with messages := tr.messages ++ msgs } := by
  induction msgs with
  | nil =>
      intro s tr h
      simpa [TranscriptStore.addMessages] using h
  | cons msg rest ih =>
      intro s tr h
      have hstep : (TranscriptStore.addMessage s callSid msg.role msg.content).transcripts =
          mapSet s.transcripts callSid { tr with messages := tr.messages ++ [msg] } := by
        simp [TranscriptStore.addMessage, h]
      have h' : mapGet (TranscriptStore.addMessage s callSid msg.role msg.content).transcripts
          callSid = some { tr with messages := tr.messages ++ [msg] } := by
        rw [hstep]; exact mapGet_mapSet_self _ _ _
      have hfold : TranscriptStore.addMessages s callSid (msg :: rest) =
          TranscriptStore.addMessages
            (TranscriptStore.addMessage s callSid msg.role msg.content) callSid rest := rfl
      rw [hfold]
      have := ih _ _ h'
      simpa [List.append_assoc] using this

/-! ## Claim theorems -/

/-- C1: barge-in truncation fires at most once. If the session state has
`responseStartTimestamp = T` and an active response item `I`, processing a
`speech_started` event while `latestMediaTimestamp = T + 220` produces exactly
one truncate instruction for `I` with elapsed 220 (followed only by the clear
instruction to the carrier), and afterward both the response-start timestamp
and the active item id are unset — so a second `speech_started` produces no
further instruction. -/
theorem c1_bargein_truncates_once (g : String → Bool) (p : Bool) (st : CallState)
    (T : Nat) (I : String)
    (hrst : st.responseStartTimestampTwilio = some T)
    (hitem : st.lastAssistantItemId = some I)
    (hts : st.latestMediaTimestamp = T + 220) :
    (processEvent g p st OpenAIEvent.speechStarted).2 =
        [Instr.truncate I 220, Instr.clearTwilio] ∧
    (processEvent g p st OpenAIEvent.speechStarted).1.responseStartTimestampTwilio = none ∧
    (processEvent g p st OpenAIEvent.speechStarted).1.lastAssistantItemId = none ∧
    (processEvent g p (processEvent g p st OpenAIEvent.speechStarted).1
        OpenAIEvent.speechStarted).2 = [] := by
  simp [processEvent, truncateActiveResponse, hrst, hitem, hts]

/-- Witness for C1, at the concrete active state `stActive`
(response started at 100, media clock at 320, item "item-1"). -/
theorem c1_bargein_truncates_once_witness :
    (stActive.responseStartTimestampTwilio = some 100 ∧
      stActive.lastAssistantItemId = some "item-1" ∧
      stActive.latestMediaTimestamp = 100 + 220) ∧
    ((processEvent neverGoodbye true stActive OpenAIEvent.speechStarted).2 =
        [Instr.truncate "item-1" 220, Instr.clearTwilio] ∧
      (processEvent neverGoodbye true stActive
          OpenAIEvent.speechStarted).1.responseStartTimestampTwilio = none ∧
      (processEvent neverGoodbye true stActive
          OpenAIEvent.speechStarted).1.lastAssistantItemId = none ∧
      (processEvent neverGoodbye true
          (processEvent neverGoodbye true stActive OpenAIEvent.speechStarted).1
          OpenAIEvent.speechStarted).2 = []) :=
  ⟨⟨rfl, rfl, rfl⟩,
    c1_bargein_truncates_once neverGoodbye true stActive 100 "item-1" rfl rfl rfl⟩

/-- C2 counterexample: the claim "responseStartTimestamp is set exactly once
per model response (a second delta of the same response does not change it)"
fails on the code. Starting from the fresh state (media clock 0), the first
audio delta records `responseStartTimestampTwilio = some 0`; after a carrier
media frame advances the clock to 40, a second delta of the same response
overwrites the recorded start to `some 40`, because the source's guard
`!responseStartTimestampTwilio` treats the stored 0 as unset. -/
theorem c2_set_once_counterexample :
    (processEvent neverGoodbye true stFresh
        (OpenAIEvent.audioDelta "p1" (some "abc"))).1.responseStartTimestampTwilio =
      some 0 ∧
    (processEvent neverGoodbye true
        (onCarrierMediaFrame
          (processEvent neverGoodbye true stFresh
            (OpenAIEvent.audioDelta "p1" (some "abc"))).1 40)
        (OpenAIEvent.audioDelta "p2" (some "abc"))).1.responseStartTimestampTwilio =
      some 40 := by decide

/-- C2 (amended): every `response.audio.delta` event carrying a payload has
that payload relayed to the carrier as the sole emitted instruction; if
`responseStartTimestampTwilio` is unset or zero it is set to the current
`latestMediaTimestamp`, otherwise it is unchanged; a truthy item identifier on
the event sets `lastAssistantItemId`, a missing or empty one leaves it
unchanged. Setting happens exactly once per response only while the recorded
timestamp is nonzero: a response whose first delta arrives at media clock 0
stores 0, which the falsy guard treats as unset, so a later delta may
overwrite it. -/
theorem c2_audio_delta_relay_amended (g : String → Bool) (p : Bool) (st : CallState)
    (d : String) (i : Option String) (hd : d ≠ "") :
    (processEvent g p st (OpenAIEvent.audioDelta d i)).2 =
        [Instr.sendAudioToTwilio d] ∧
    (numFalsy st.responseStartTimestampTwilio = true →
      (processEvent g p st (OpenAIEvent.audioDelta d i)).1.responseStartTimestampTwilio =
        some st.latestMediaTimestamp) ∧
    (numFalsy st.responseStartTimestampTwilio = false →
      (processEvent g p st (OpenAIEvent.audioDelta d i)).1.responseStartTimestampTwilio =
        st.responseStartTimestampTwilio) ∧
    (strTruthy i = true →
      (processEvent g p st (OpenAIEvent.audioDelta d i)).1.lastAssistantItemId = i) ∧
    (strTruthy i = false →
      (processEvent g p st (OpenAIEvent.audioDelta d i)).1.lastAssistantItemId =
        st.lastAssistantItemId) := by
  have hpe : processEvent g p st (OpenAIEvent.audioDelta d i) = handleAudioDelta st d i := by
    simp [processEvent, hd]
  obtain ⟨h2, _, _, _, _, hrst, hitem⟩ := handleAudioDelta_spec st d i
  refine ⟨by rw [hpe, h2], ?_, ?_, ?_, ?_⟩ <;> intro h <;>
    rw [hpe] <;> simp [hrst, hitem, h]

/-- Witness for the amended C2, at the fresh state with payload "p1" and item
"abc": the timestamp is recorded and the item id stored. -/
theorem c2_audio_delta_relay_amended_witness :
    (("p1" : String) ≠ "") ∧
    ((processEvent neverGoodbye true stFresh
          (OpenAIEvent.audioDelta "p1" (some "abc"))).2 =
        [Instr.sendAudioToTwilio "p1"] ∧
      (numFalsy stFresh.responseStartTimestampTwilio = true →
        (processEvent neverGoodbye true stFresh
            (OpenAIEvent.audioDelta "p1" (some "abc"))).1.responseStartTimestampTwilio =
          some stFresh.latestMediaTimestamp) ∧
      (numFalsy stFresh.responseStartTimestampTwilio = false →
        (processEvent neverGoodbye true stFresh
            (OpenAIEvent.audioDelta "p1" (some "abc"))).1.responseStartTimestampTwilio =
          stFresh.responseStartTimestampTwilio) ∧
      (strTruthy (some "abc") = true →
        (processEvent neverGoodbye true stFresh
            (OpenAIEvent.audioDelta "p1" (some "abc"))).1.lastAssistantItemId =
          some "abc") ∧
      (strTruthy (some "abc") = false →
        (processEvent neverGoodbye true stFresh
            (OpenAIEvent.audioDelta "p1" (some "abc"))).1.lastAssistantItemId =
          stFresh.lastAssistantItemId)) :=
  ⟨by decide,
    c2_audio_delta_relay_amended neverGoodbye true stFresh "p1" (some "abc") (by decide)⟩

/-- C3 counterexample: the claim that `responseStartTimestampTwilio` and
`lastAssistantItemId` are always set together fails. The fresh state satisfies
the set-together relation (both unset); processing an audio delta carrying a
payload but no `item_id` sets the timestamp and leaves the item id unset,
breaking the relation. -/
theorem c3_set_together_counterexample :
    (stFresh.responseStartTimestampTwilio.isSome ↔ stFresh.lastAssistantItemId.isSome) ∧
    ¬ ((processEvent neverGoodbye true stFresh
          (OpenAIEvent.audioDelta "p" none)).1.responseStartTimestampTwilio.isSome ↔
        (processEvent neverGoodbye true stFresh
          (OpenAIEvent.audioDelta "p" none)).1.lastAssistantItemId.isSome) := by
  decide

/-- C3 (amended): the one-directional invariant holds and is preserved by
every processed model message: whenever `lastAssistantItemId` is non-empty,
`responseStartTimestampTwilio` is set — an active item id is valid only while
a response start is recorded. (The set-together biconditional fails: an audio
delta without an item identifier sets the timestamp alone.) -/
theorem c3_active_item_needs_timestamp (g : String → Bool) (p : Bool) (st : CallState)
    (m : ModelMessage)
    (h : st.lastAssistantItemId.isSome = true → st.responseStartTimestampTwilio.isSome = true) :
    (processMessage g p st m).1.lastAssistantItemId.isSome = true →
      (processMessage g p st m).1.responseStartTimestampTwilio.isSome = true := by
  cases m with
  | malformed raw => exact h
  | wellFormed e =>
    cases e with
    | transcriptionCompleted t =>
        by_cases htt : t = "" <;>
          simp [processMessage, processEvent, handleTranscriptionCompleted, htt] <;> exact h
    | audioTranscriptDone t =>
        by_cases htt : t = "" <;>
          simp [processMessage, processEvent, handleAudioTranscriptDone, htt] <;> exact h
    | audioDelta d i =>
        by_cases hd : d = ""
        · simp [processMessage, processEvent, hd]; exact h
        · have hpe : (processMessage g p st
              (ModelMessage.wellFormed (OpenAIEvent.audioDelta d i))).1 =
              (handleAudioDelta st d i).1 := by simp [processMessage, processEvent, hd]
          obtain ⟨_, _, _, _, _, hrst, _⟩ := handleAudioDelta_spec st d i
          rw [hpe, hrst]
          intro _
          cases hr : st.responseStartTimestampTwilio with
          | none => simp [hr, numFalsy]
          | some n => by_cases h1 : numFalsy (some n) = true <;> simp [hr, h1]
    | speechStarted =>
        cases hi : st.lastAssistantItemId with
        | none => simp [processMessage, processEvent, truncateActiveResponse, hi]
        | some itm => simp [processMessage, processEvent, truncateActiveResponse, hi]
    | other ty => exact h

/-- Witness for the amended C3, at the active state (both fields set)
processing an assistant transcript. -/
theorem c3_active_item_needs_timestamp_witness :
    (stActive.lastAssistantItemId.isSome = true →
      stActive.responseStartTimestampTwilio.isSome = true) ∧
    ((processMessage neverGoodbye true stActive
          (ModelMessage.wellFormed (OpenAIEvent.audioTranscriptDone "hello"))).1.lastAssistantItemId.isSome = true →
      (processMessage neverGoodbye true stActive
          (ModelMessage.wellFormed (OpenAIEvent.audioTranscriptDone "hello"))).1.responseStartTimestampTwilio.isSome = true) :=
  ⟨by decide,
    c3_active_item_needs_timestamp neverGoodbye true stActive
      (ModelMessage.wellFormed (OpenAIEvent.audioTranscriptDone "hello")) (by decide)⟩

/-- C4: a `speech_started` event while no response is active (response-start
timestamp and active item id both unset) emits no instruction and leaves the
state unchanged. -/
theorem c4_speech_started_noop (g : String → Bool) (p : Bool) (st : CallState)
    (hrst : st.responseStartTimestampTwilio = none)
    (hitem : st.lastAssistantItemId = none) :
    processEvent g p st OpenAIEvent.speechStarted = (st, []) := by
  simp [processEvent, truncateActiveResponse, hitem]

/-- Witness for C4, at the fresh state. -/
theorem c4_speech_started_noop_witness :
    (stFresh.responseStartTimestampTwilio = none ∧ stFresh.lastAssistantItemId = none) ∧
    processEvent neverGoodbye true stFresh OpenAIEvent.speechStarted = (stFresh, []) :=
  ⟨⟨rfl, rfl⟩, c4_speech_started_noop neverGoodbye true stFresh rfl rfl⟩

/-- C5: round-trip over the transcript store. For every starting store, call
sid and message list, `startCall` followed by the `addMessage` calls followed
by `endCall` yields a transcript for that sid containing exactly those
messages in call order, with status "completed". -/
theorem c5_transcript_round_trip (s : TranscriptStore) (sid fromN toN ctx : String)
    (t0 t1 : Nat) (msgs : List ConversationMessage) :
    TranscriptStore.getTranscript
        (TranscriptStore.endCall
          (TranscriptStore.addMessages
            (TranscriptStore.startCall s sid fromN toN ctx t0) sid msgs) sid t1) sid =
      some { callSid := sid
             fromNumber := fromN
             toNumber := toN
             callContext := ctx
             startTime := t0
             endTime := some t1
             messages := msgs
             status := "completed" } := by
  have h0 : mapGet (TranscriptStore.startCall s sid fromN toN ctx t0).transcripts sid =
      some { callSid := sid
             fromNumber := fromN
             toNumber := toN
             callContext := ctx
             startTime := t0
             endTime := none
             messages := []
             status := "in_progress" } := by
    simp [TranscriptStore.startCall, mapGet_mapSet_self]
  have h1 := addMessages_get sid msgs _ _ h0
  simp only [List.nil_append] at h1
  simp [TranscriptStore.endCall, TranscriptStore.getTranscript, h1, mapGet_mapSet_self]

/-- C6: inbound model messages never disturb the session. A message whose
envelope fails to decode leaves the state unchanged and produces only a log
line; a well-formed event of an unknown kind leaves the state unchanged and
produces no instruction at all. `processMessage` is a total function, so no
exception reaches the caller and no effect (in particular no teardown) beyond
those listed is possible. -/
theorem c6_bad_message_no_effect (g : String → Bool) (p : Bool) (st : CallState)
    (raw ty : String) :
    processMessage g p st (ModelMessage.malformed raw) = (st, [Instr.logError raw]) ∧
    processMessage g p st (ModelMessage.wellFormed (OpenAIEvent.other ty)) = (st, []) := by
  constructor <;> rfl

/-- C7: the conversation history is strictly append-only. A single processed
event either leaves the history unchanged or appends exactly one entry at the
end, and over any event sequence the starting history remains an initial
segment of the final history (nothing is removed, reordered or mutated). -/
theorem c7_history_append_only (g : String → Bool) (p : Bool) (st : CallState)
    (e : OpenAIEvent) (es : List OpenAIEvent) :
    ((processEvent g p st e).1.conversationHistory = st.conversationHistory ∨
      ∃ m, (processEvent g p st e).1.conversationHistory = st.conversationHistory ++ [m]) ∧
    ∃ tail, (processEvents g p st es).conversationHistory = st.conversationHistory ++ tail :=
  ⟨history_extends g p st e, history_extends_fold g p es st⟩

/-- C8: every transcript line appended to the history — caller transcription
(role user) or assistant transcript (role assistant) — is checked against the
termination-phrase policy: the end-call instruction is emitted exactly when
the policy matches the appended text. -/
theorem c8_goodbye_triggers_endcall (g : String → Bool) (p : Bool) (st : CallState)
    (t : String) (ht : t ≠ "") :
    ((Instr.endCall ∈ (processEvent g p st (OpenAIEvent.transcriptionCompleted t)).2) ↔
        g t = true) ∧
    ((Instr.endCall ∈ (processEvent g p st (OpenAIEvent.audioTranscriptDone t)).2) ↔
        g t = true) :=
  ⟨mem_endCall_handleTranscription g p st t ht,
    mem_endCall_handleAudioTranscriptDone g p st t ht⟩

/-- Witness for C8, with the concrete policy matching the word "goodbye" and
the transcript "goodbye" at the active state. -/
theorem c8_goodbye_triggers_endcall_witness :
    (("goodbye" : String) ≠ "") ∧
    (((Instr.endCall ∈ (processEvent saysGoodbye true stActive
          (OpenAIEvent.transcriptionCompleted "goodbye")).2) ↔
        saysGoodbye "goodbye" = true) ∧
      ((Instr.endCall ∈ (processEvent saysGoodbye true stActive
          (OpenAIEvent.audioTranscriptDone "goodbye")).2) ↔
        saysGoodbye "goodbye" = true)) :=
  ⟨by decide, c8_goodbye_triggers_endcall saysGoodbye true stActive "goodbye" (by decide)⟩

/-- C9 counterexample: the claim "for every transcript append, the persistence
write is dispatched" fails. In a state whose `callSid` is still empty,
processing a caller transcription appends the line to the history yet emits no
instruction at all — in particular no persistence write. -/
theorem c9_dispatch_counterexample :
    (processEvent neverGoodbye true stNoSid
        (OpenAIEvent.transcriptionCompleted "hi")).1.conversationHistory =
      stNoSid.conversationHistory ++ [⟨"user", "hi"⟩] ∧
    (processEvent neverGoodbye true stNoSid
        (OpenAIEvent.transcriptionCompleted "hi")).2 = [] := by decide

/-- C9 (amended): for every transcript append in a session that knows its
`callSid`, the persistence write is dispatched regardless of whether it will
later fail, and a persistence failure is isolated: the post-state (hence the
history append) and the presence of the end-call effect are identical whether
the dispatched write succeeds or fails — the failure is logged only. -/
theorem c9_persistence_fire_and_forget (g : String → Bool) (st : CallState) (t : String)
    (ht : t ≠ "") (hsid : st.callSid ≠ "") :
    (∀ p : Bool, Instr.persistMessage st.callSid "user" t ∈
        (processEvent g p st (OpenAIEvent.transcriptionCompleted t)).2 ∧
      Instr.persistMessage st.callSid "assistant" t ∈
        (processEvent g p st (OpenAIEvent.audioTranscriptDone t)).2) ∧
    (processEvent g false st (OpenAIEvent.transcriptionCompleted t)).1 =
      (processEvent g true st (OpenAIEvent.transcriptionCompleted t)).1 ∧
    (processEvent g false st (OpenAIEvent.audioTranscriptDone t)).1 =
      (processEvent g true st (OpenAIEvent.audioTranscriptDone t)).1 ∧
    ((Instr.endCall ∈ (processEvent g false st (OpenAIEvent.transcriptionCompleted t)).2) ↔
      (Instr.endCall ∈ (processEvent g true st (OpenAIEvent.transcriptionCompleted t)).2)) ∧
    ((Instr.endCall ∈ (processEvent g false st (OpenAIEvent.audioTranscriptDone t)).2) ↔
      (Instr.endCall ∈ (processEvent g true st (OpenAIEvent.audioTranscriptDone t)).2)) := by
  refine ⟨fun p => ⟨?_, ?_⟩, ?_, ?_, ?_, ?_⟩
  · simp [processEvent, handleTranscriptionCompleted, ht, hsid]
  · simp [processEvent, handleAudioTranscriptDone, ht, hsid]
  · simp [processEvent, handleTranscriptionCompleted, ht]
  · simp [processEvent, handleAudioTranscriptDone, ht]
  · exact Iff.trans (mem_endCall_handleTranscription g false st t ht)
      (mem_endCall_handleTranscription g true st t ht).symm
  · exact Iff.trans (mem_endCall_handleAudioTranscriptDone g false st t ht)
      (mem_endCall_handleAudioTranscriptDone g true st t ht).symm

/-- Witness for the amended C9, at the active state (callSid "CA1") with the
transcript "see you". -/
theorem c9_persistence_fire_and_forget_witness :
    (("see you" : String) ≠ "" ∧ stActive.callSid ≠ "") ∧
    ((∀ p : Bool, Instr.persistMessage stActive.callSid "user" "see you" ∈
        (processEvent neverGoodbye p stActive
          (OpenAIEvent.transcriptionCompleted "see you")).2 ∧
      Instr.persistMessage stActive.callSid "assistant" "see you" ∈
        (processEvent neverGoodbye p stActive
          (OpenAIEvent.audioTranscriptDone "see you")).2) ∧
    (processEvent neverGoodbye false stActive
        (OpenAIEvent.transcriptionCompleted "see you")).1 =
      (processEvent neverGoodbye true stActive
        (OpenAIEvent.transcriptionCompleted "see you")).1 ∧
    (processEvent neverGoodbye false stActive
        (OpenAIEvent.audioTranscriptDone "see you")).1 =
      (processEvent neverGoodbye true stActive
        (OpenAIEvent.audioTranscriptDone "see you")).1 ∧
    ((Instr.endCall ∈ (processEvent neverGoodbye false stActive
        (OpenAIEvent.transcriptionCompleted "see you")).2) ↔
      (Instr.endCall ∈ (processEvent neverGoodbye true stActive
        (OpenAIEvent.transcriptionCompleted "see you")).2)) ∧
    ((Instr.endCall ∈ (processEvent neverGoodbye false stActive
        (OpenAIEvent.audioTranscriptDone "see you")).2) ↔
      (Instr.endCall ∈ (processEvent neverGoodbye true stActive
        (OpenAIEvent.audioTranscriptDone "see you")).2))) :=
  ⟨⟨by decide, by decide⟩,
    c9_persistence_fire_and_forget neverGoodbye stActive "see you" (by decide) (by decide)⟩

/-- C10: per-user transcript isolation at the persistence layer. The
ownership-checked lookup returns a transcript exactly when a call row with the
requested sid exists and its owning user equals the requesting user; in every
other case — absent row or mismatching owner — it returns none, so a foreign
user's lookup is indistinguishable from the call not existing. -/
theorem c10_transcript_ownership (db : List DbCall) (callSid userId : String) :
    (getTranscriptOwned db callSid userId).isSome = ownerMatches db callSid userId := by
  unfold getTranscriptOwned ownerMatches
  cases h : findUniqueBySid db callSid with
  | none => rfl
  | some call => by_cases hu : call.userId = userId <;> simp [hu]

end VoiceCall
